import Mathlib

/-!
Shallow embedding of `eww/quitterproxy.py`.

The module defines a `QuitterProxy` class holding a `threading.local`
(`quit_routes`, modelled as a map from thread identity to an optional
registered behavior) and a fixed `original_quit` behavior, plus the
standalone `safe_quit` function.  Behaviors are Python callables; we model
them as a structure carrying an identity tag `bid` (Python object identity,
so that "behavior B was invoked with argument c" is observable) and a `run`
function returning either normal completion or a raised exception.

`QuitterProxy.call` models `__call__`: the Python source wraps the whole
expression `self.quit_routes.quit(code)` in `try ... except AttributeError`,
so an `AttributeError` arising either from the missing thread-local
attribute or from the behavior call itself triggers the fallback to
`original_quit`.  The embedding reproduces exactly that.  Invocation logs
(`List (Nat × Code)`, behavior identity paired with the argument) record
which behaviors get called, in order.
-/

namespace Eww

/-- Python exception values relevant to the quitter proxy: `SystemExit` with
its payload, `AttributeError`, and any other exception (tagged). -/
inductive PyExc where
  | systemExit (payload : Option Int)
  | attributeError
  | otherExc (tag : Nat)
  deriving DecidableEq

/-- Thread identity. -/
abbrev ThreadId := Nat

/-- An exit code argument; `none` models Python `None` (the default). -/
abbrev Code := Option Int

/-- Outcome of calling a behavior: normal return or a raised exception. -/
abbrev QuitResult := Except PyExc Unit

/-- A quit behavior: a Python callable, with `bid` modelling its object
identity and `run` its behavior on an optional exit code. -/
structure Behavior where
  bid : Nat
  run : Code → QuitResult

/-- State of a `QuitterProxy` instance: the thread-local `quit_routes`
(one optional entry per thread) and the fixed `original_quit`. -/
structure QuitterProxy where
  quit_routes : ThreadId → Option Behavior
  original_quit : Behavior

/-- Embeds `QuitterProxy.register`: sets the calling thread's slot. -/
def QuitterProxy.register (p : QuitterProxy) (tid : ThreadId)
    (quit_method : Behavior) : QuitterProxy :=
  { p with quit_routes := fun t => if t = tid then some quit_method else p.quit_routes t }

/-- Embeds `QuitterProxy.__init__`: creates the empty thread-local, stores
`original_quit`, and registers it in the constructing thread `tid`. -/
def QuitterProxy.init (tid : ThreadId) (original_quit : Behavior) : QuitterProxy :=
  QuitterProxy.register { quit_routes := fun _ => none, original_quit := original_quit }
    tid original_quit

/-- Embeds `QuitterProxy.unregister`: `del self.quit_routes.quit` removes the
calling thread's entry; if it was absent, the `AttributeError` is caught and a
debug line is logged.  The `Bool` records whether the debug log fired. -/
def QuitterProxy.unregister (p : QuitterProxy) (tid : ThreadId) : QuitterProxy × Bool :=
  match p.quit_routes tid with
  | some _ => ({ p with quit_routes := fun t => if t = tid then none else p.quit_routes t }, false)
  | none => (p, true)

/-- Embeds `QuitterProxy.__call__`: `try: self.quit_routes.quit(code)
except AttributeError: self.original_quit(code)`.  The missing attribute
raises `AttributeError`, but so may the behavior call itself; both land in
the `except` clause, which calls `original_quit(code)` (whose own exceptions,
`AttributeError` included, propagate).  Returns the overall outcome together
with the ordered log of behavior invocations. -/
def QuitterProxy.call (p : QuitterProxy) (tid : ThreadId) (code : Code) :
    QuitResult × List (Nat × Code) :=
  match p.quit_routes tid with
  | none => (p.original_quit.run code, [(p.original_quit.bid, code)])
  | some b =>
    match b.run code with
    | Except.error PyExc.attributeError =>
        (p.original_quit.run code, [(b.bid, code), (p.original_quit.bid, code)])
    | r => (r, [(b.bid, code)])

/-- Embeds `QuitterProxy.__repr__`: the body is just `self()` with no
`return`, so the function invokes the proxy with no code and returns Python
`None` (modelled `Except.ok none` in `Except PyExc (Option String)`) when the
call returns normally; a raised exception propagates. -/
def QuitterProxy.reprEval (p : QuitterProxy) (tid : ThreadId) :
    Except PyExc (Option String) × List (Nat × Code) :=
  match p.call tid none with
  | (Except.ok _, log) => (Except.ok none, log)
  | (Except.error e, log) => (Except.error e, log)

/-- Embeds `safe_quit`: `raise SystemExit(code)`. -/
def safe_quit (code : Code) : QuitResult :=
  Except.error (PyExc.systemExit code)

/-- Modelled from the spec: the platform builtin quit (not part of this
repository's sources) raises the standard exit-request signal `SystemExit`
carrying the given code; the stream-closing side effect is outside the
exception model.  This is the signal a catcher observes. -/
def builtin_quit_signal (code : Code) : PyExc :=
  PyExc.systemExit code

/-- A register or unregister operation performed by some thread. -/
inductive Op where
  | reg (tid : ThreadId) (b : Behavior)
  | unreg (tid : ThreadId)

/-- The thread performing an operation. -/
def Op.tid : Op → ThreadId
  | .reg t _ => t
  | .unreg t => t

/-- One operation applied to the proxy state. -/
def step (p : QuitterProxy) : Op → QuitterProxy
  | .reg t b => p.register t b
  | .unreg t => (p.unregister t).1

/-- A sequence of operations applied to the proxy state, in order. -/
def run (p : QuitterProxy) (ops : List Op) : QuitterProxy :=
  List.foldl step p ops

/-- A behavior modelling `safe_quit` as a registered callable. -/
def bSafe : Behavior := ⟨0, safe_quit⟩

/-- A behavior that returns normally. -/
def bRet : Behavior := ⟨1, fun _ => Except.ok ()⟩

/-- A behavior that raises `AttributeError` when called. -/
def bAttr : Behavior := ⟨2, fun _ => Except.error PyExc.attributeError⟩

/-- A proxy with no thread registered, with `bSafe` as the original quit. -/
def emptyP : QuitterProxy := ⟨fun _ => none, bSafe⟩

theorem step_quit_routes_other (p : QuitterProxy) (op : Op) (T : ThreadId)
    (h : Op.tid op ≠ T) : (step p op).quit_routes T = p.quit_routes T := by
  cases op with
  | reg t b =>
      simp only [Op.tid] at h
      simp [step, QuitterProxy.register, Ne.symm h]
  | unreg t =>
      simp only [Op.tid] at h
      cases hq : p.quit_routes t with
      | none => simp [step, QuitterProxy.unregister, hq]
      | some b => simp [step, QuitterProxy.unregister, hq, Ne.symm h]

theorem run_quit_routes_other (ops : List Op) (p : QuitterProxy) (T : ThreadId)
    (h : ∀ op ∈ ops, Op.tid op ≠ T) :
    (run p ops).quit_routes T = p.quit_routes T := by
  induction ops generalizing p with
  | nil => rfl
  | cons o os ih =>
      have h1 : run p (o :: os) = run (step p o) os := rfl
      rw [h1, ih (step p o) (fun op hop => h op (List.mem_cons_of_mem o hop))]
      exact step_quit_routes_other p o T (h o (List.mem_cons_self o os))

theorem step_original_quit (p : QuitterProxy) (op : Op) :
    (step p op).original_quit = p.original_quit := by
  cases op with
  | reg t b => rfl
  | unreg t =>
      cases hq : p.quit_routes t with
      | none => simp [step, QuitterProxy.unregister, hq]
      | some b => simp [step, QuitterProxy.unregister, hq]

theorem run_original_quit (ops : List Op) (p : QuitterProxy) :
    (run p ops).original_quit = p.original_quit := by
  induction ops generalizing p with
  | nil => rfl
  | cons o os ih =>
      have h1 : run p (o :: os) = run (step p o) os := rfl
      rw [h1, ih (step p o), step_original_quit]

/-- C2: for every thread T that has no entry registered, invoking the proxy
in T with argument `code` calls the global default behavior captured at
construction with that code (and returns its outcome). -/
theorem unregistered_thread_calls_global_default
    (p : QuitterProxy) (T : ThreadId) (code : Code)
    (h : p.quit_routes T = none) :
    p.call T code = (p.original_quit.run code, [(p.original_quit.bid, code)]) := by
  simp [QuitterProxy.call, h]

/-- C2 witness: thread 7 of `emptyP` has no entry, and invoking the proxy
there with code 2 calls the global default with code 2. -/
theorem unregistered_thread_calls_global_default_witness :
    emptyP.quit_routes 7 = none ∧
    emptyP.call 7 (some 2) =
      (emptyP.original_quit.run (some 2), [(emptyP.original_quit.bid, some 2)]) :=
  ⟨rfl, unregistered_thread_calls_global_default emptyP 7 (some 2) rfl⟩

/-- C7: for every thread T with no current entry, `unregister` in T raises
nothing, returns the state unchanged (every thread's slot included), and is
observable only as the debug log event (the `true` flag). -/
theorem unregister_without_entry_is_noop
    (p : QuitterProxy) (T : ThreadId) (h : p.quit_routes T = none) :
    p.unregister T = (p, true) := by
  simp [QuitterProxy.unregister, h]

/-- C7 witness: `unregister` in thread 3 of the empty proxy is a logged
no-op. -/
theorem unregister_without_entry_is_noop_witness :
    emptyP.quit_routes 3 = none ∧ emptyP.unregister 3 = (emptyP, true) :=
  ⟨rfl, unregister_without_entry_is_noop emptyP 3 rfl⟩

/-- C8: constructing the proxy with global default `g` in thread T stores `g`
as the fixed global default and immediately registers it as T's own
per-thread entry; `init` is total, so construction has no failure
conditions. -/
theorem init_stores_default_and_registers_self (T : ThreadId) (g : Behavior) :
    (QuitterProxy.init T g).original_quit = g ∧
    (QuitterProxy.init T g).quit_routes T = some g := by
  refine ⟨rfl, ?_⟩
  simp [QuitterProxy.init, QuitterProxy.register]

/-- C6: `safe_quit code` raises `SystemExit` carrying exactly `code`, the
same signal kind and payload the builtin quit produces for a catcher, and
does not return normally. -/
theorem safe_quit_raises_system_exit (code : Code) :
    safe_quit code = Except.error (PyExc.systemExit code) ∧
    safe_quit code = Except.error (builtin_quit_signal code) ∧
    safe_quit code ≠ Except.ok () := by
  refine ⟨rfl, rfl, ?_⟩
  intro hc
  simp [safe_quit] at hc

/-- C1: after thread T registers behavior B, as long as T performs no further
register or unregister (operations by other threads are arbitrary), every
invocation of the proxy in T still resolves to B and invokes B with the given
code — `none` models an invocation with no code given. -/
theorem register_routes_subsequent_calls
    (p : QuitterProxy) (T : ThreadId) (B : Behavior) (ops : List Op) (code : Code)
    (h : ∀ op ∈ ops, Op.tid op ≠ T) :
    (run (p.register T B) ops).quit_routes T = some B ∧
    ((run (p.register T B) ops).call T code).2.head? = some (B.bid, code) := by
  have hq : (run (p.register T B) ops).quit_routes T = some B := by
    rw [run_quit_routes_other ops (p.register T B) T h]
    simp [QuitterProxy.register]
  refine ⟨hq, ?_⟩
  simp only [QuitterProxy.call, hq]
  cases hr : B.run code with
  | ok u => simp
  | error e => cases e <;> simp

/-- C1 witness: thread 0 registers `bRet`; after thread 1 registers `bAttr`,
an invocation in thread 0 with code 3 still resolves to and invokes `bRet`. -/
theorem register_routes_subsequent_calls_witness :
    (run ((QuitterProxy.init 0 bSafe).register 0 bRet) [Op.reg 1 bAttr]).quit_routes 0 =
      some bRet ∧
    ((run ((QuitterProxy.init 0 bSafe).register 0 bRet) [Op.reg 1 bAttr]).call 0
      (some 3)).2.head? = some (bRet.bid, some 3) :=
  register_routes_subsequent_calls (QuitterProxy.init 0 bSafe) 0 bRet [Op.reg 1 bAttr]
    (some 3)
    (by
      intro op hop
      rw [List.mem_singleton] at hop
      subst hop
      decide)

/-- C3: after `unregister` in thread T, and regardless of any registrations
or unregistrations performed by other threads afterwards, the next invocation
in T resolves to the global default and calls it with the given code. -/
theorem unregister_reverts_to_global_default
    (p : QuitterProxy) (T : ThreadId) (ops : List Op) (code : Code)
    (h : ∀ op ∈ ops, Op.tid op ≠ T) :
    (run (step p (Op.unreg T)) ops).quit_routes T = none ∧
    (run (step p (Op.unreg T)) ops).call T code =
      (p.original_quit.run code, [(p.original_quit.bid, code)]) := by
  have h0 : (step p (Op.unreg T)).quit_routes T = none := by
    cases hq : p.quit_routes T with
    | none => simp [step, QuitterProxy.unregister, hq]
    | some b => simp [step, QuitterProxy.unregister, hq]
  have hq : (run (step p (Op.unreg T)) ops).quit_routes T = none := by
    rw [run_quit_routes_other ops (step p (Op.unreg T)) T h]
    exact h0
  have horig : (run (step p (Op.unreg T)) ops).original_quit = p.original_quit := by
    rw [run_original_quit, step_original_quit]
  refine ⟨hq, ?_⟩
  simp only [QuitterProxy.call, hq, horig]

/-- C3 witness: thread 0 (which had `bRet` registered) unregisters; after
thread 1 registers `bAttr`, the next invocation in thread 0 resolves to the
global default `bSafe`. -/
theorem unregister_reverts_to_global_default_witness :
    (run (step (QuitterProxy.init 0 bRet) (Op.unreg 0)) [Op.reg 1 bAttr]).quit_routes 0 =
      none ∧
    (run (step (QuitterProxy.init 0 bRet) (Op.unreg 0)) [Op.reg 1 bAttr]).call 0 none =
      ((QuitterProxy.init 0 bRet).original_quit.run none,
        [((QuitterProxy.init 0 bRet).original_quit.bid, none)]) :=
  unregister_reverts_to_global_default (QuitterProxy.init 0 bRet) 0 [Op.reg 1 bAttr] none
    (by
      intro op hop
      rw [List.mem_singleton] at hop
      subst hop
      decide)

/-- C5: any sequence of register and unregister operations performed by
thread T leaves both the slot and the invocation outcome observed by a
distinct thread Tb unchanged: each operation touches only the calling
thread's slot. -/
theorem ops_in_thread_do_not_affect_others
    (p : QuitterProxy) (T Tb : ThreadId) (ops : List Op) (code : Code)
    (hne : Tb ≠ T) (h : ∀ op ∈ ops, Op.tid op = T) :
    (run p ops).quit_routes Tb = p.quit_routes Tb ∧
    (run p ops).call Tb code = p.call Tb code := by
  have hq : (run p ops).quit_routes Tb = p.quit_routes Tb := by
    apply run_quit_routes_other
    intro op hop
    rw [h op hop]
    exact fun hc => hne hc.symm
  refine ⟨hq, ?_⟩
  simp only [QuitterProxy.call, hq, run_original_quit]

/-- C5 witness: thread 0 registers `bAttr` and then unregisters; thread 1's
slot and invocation outcome are unchanged throughout. -/
theorem ops_in_thread_do_not_affect_others_witness :
    (run (QuitterProxy.init 1 bRet) [Op.reg 0 bAttr, Op.unreg 0]).quit_routes 1 =
      (QuitterProxy.init 1 bRet).quit_routes 1 ∧
    (run (QuitterProxy.init 1 bRet) [Op.reg 0 bAttr, Op.unreg 0]).call 1 none =
      (QuitterProxy.init 1 bRet).call 1 none :=
  ops_in_thread_do_not_affect_others (QuitterProxy.init 1 bRet) 0 1
    [Op.reg 0 bAttr, Op.unreg 0] none (by decide)
    (by
      intro op hop
      cases hop with
      | head => rfl
      | tail _ h2 =>
        cases h2 with
        | head => rfl
        | tail _ h3 => cases h3)

/-- C9: for every thread and registration state, evaluating the proxy as a
bare value (`__repr__`) has exactly the effect of invoking it with no code:
the same behaviors are invoked with `None`, in the same order, and the same
exception (if any) propagates; on a normal return `__repr__` yields `None`. -/
theorem repr_same_effect_as_call_none (p : QuitterProxy) (T : ThreadId) :
    (p.reprEval T).2 = (p.call T none).2 ∧
    (p.reprEval T).1 = Except.map (fun _ => none) (p.call T none).1 := by
  rcases hc : p.call T none with ⟨r, log⟩
  cases r with
  | ok u => simp [QuitterProxy.reprEval, hc, Except.map]
  | error e => simp [QuitterProxy.reprEval, hc, Except.map]

/-- C10: whenever the behavior resolved for the calling thread returns
normally, `__repr__` returns Python `None` — not a string. -/
theorem repr_returns_none_on_normal_return
    (p : QuitterProxy) (T : ThreadId) (h : (p.call T none).1 = Except.ok ()) :
    (p.reprEval T).1 = Except.ok none := by
  rcases hc : p.call T none with ⟨r, log⟩
  rw [hc] at h
  simp only at h
  subst h
  simp [QuitterProxy.reprEval, hc]

/-- C10 witness: with the normally-returning behavior `bRet` registered in
thread 0, `__repr__` in thread 0 returns `None`. -/
theorem repr_returns_none_on_normal_return_witness :
    (((QuitterProxy.init 0 bSafe).register 0 bRet).call 0 none).1 = Except.ok () ∧
    (((QuitterProxy.init 0 bSafe).register 0 bRet).reprEval 0).1 = Except.ok none :=
  ⟨rfl, repr_returns_none_on_normal_return ((QuitterProxy.init 0 bSafe).register 0 bRet)
    0 rfl⟩

/-- C4: evaluation of `__call__` at the failing input.  Thread 0 constructs
the proxy around `bSafe` and registers `bAttr`, a behavior that raises
`AttributeError`.  Invoking the proxy in thread 0 does not propagate that
`AttributeError`: the `except AttributeError` clause of `__call__` swallows
it, invokes the global default as a second behavior (the invocation log has
both behaviors), and the caller observes the default's `SystemExit(None)`
instead — contradicting exception transparency. -/
theorem call_swallows_behavior_attribute_error :
    ((QuitterProxy.init 0 bSafe).register 0 bAttr).call 0 none =
      (Except.error (PyExc.systemExit none), [(bAttr.bid, none), (bSafe.bid, none)]) ∧
    bAttr.run none = Except.error PyExc.attributeError := by
  exact ⟨rfl, rfl⟩

end Eww
